import Mathlib

/-!
# Verification of libabigail's suppression engine and symtab reader

This file gives a shallow embedding, in Lean 4, of the suppression-matching
engine of libabigail (`src/abg-suppression-priv.h`) and of the symtab
filter/iterator/load subsystem (interface in `include/abg-symtab-reader.h`;
the implementation is embedded from the symtab reader translation unit
appended to `src/abg-writer.cc` from line 4502 on — the copy whose
signatures the header declares), and proves the stated properties of those
components.

POSIX regex services (`regcomp` / `regexec`) are external to the program; they
are modelled by an explicit environment `regex_env` recording, for every
pattern string and every `cflags` value, whether `regcomp` succeeds, and, for
every compiled pattern, which subject strings `regexec` reports as matching.
The C++ code lazily compiles each regex string once and caches the compiled
object in a `mutable` field; since compilation is deterministic, that
memoisation is semantics-preserving and the embedding simply recompiles
through the environment at each use.
-/

namespace Abigail

/-- The value of the POSIX `REG_EXTENDED` flag as used by the code. -/
def REG_EXTENDED : Nat := 1

/-- A compiled POSIX regular expression, modelled as the pattern string
together with the `cflags` that were passed to `regcomp`. -/
structure regex_t where
  pattern : String
  cflags : Nat
deriving DecidableEq

/-- Environment modelling the external POSIX regex library.
`regcomp_ok pat flags` holds when `regcomp(pat, flags)` returns 0;
`regexec_ok pat flags s` holds when `regexec` on the regex compiled from
`pat` with `flags` matches the subject string `s` (returns 0). -/
structure regex_env where
  regcomp_ok : String → Nat → Bool
  regexec_ok : String → Nat → String → Bool

/-- `regexec(regexp, s) == 0` for a compiled regex object. -/
def regexec_match (env : regex_env) (r : regex_t) (s : String) : Bool :=
  env.regexec_ok r.pattern r.cflags s

/-- The private data of `suppression_base` (`suppression_base::priv`):
the label, the two file-name regex strings and the two SONAME regex strings.
The `mutable` cached regex pointers are represented by the lazy getters
below instead of stored fields. -/
structure suppression_base_priv where
  is_artificial_ : Bool
  drops_artifact_ : Bool
  label_ : String
  file_name_regex_str_ : String
  file_name_not_regex_str_ : String
  soname_regex_str_ : String
  soname_not_regex_str_ : String
deriving DecidableEq

/-- The default-constructed `suppression_base::priv` (all strings empty,
flags false). -/
def suppression_base_priv_default : suppression_base_priv :=
  ⟨false, false, "", "", "", "", ""⟩

/-- `suppression_base::priv::get_file_name_regex`: if the
`file_name_regex_str_` property is empty, return nil; otherwise compile it
with `REG_EXTENDED` and cache (return) the object only when `regcomp`
returned 0. -/
def get_file_name_regex (env : regex_env) (p : suppression_base_priv) :
    Option regex_t :=
  if p.file_name_regex_str_ = "" then none
  else if env.regcomp_ok p.file_name_regex_str_ REG_EXTENDED then
    some ⟨p.file_name_regex_str_, REG_EXTENDED⟩
  else none

/-- `suppression_base::priv::get_file_name_not_regex`. -/
def get_file_name_not_regex (env : regex_env) (p : suppression_base_priv) :
    Option regex_t :=
  if p.file_name_not_regex_str_ = "" then none
  else if env.regcomp_ok p.file_name_not_regex_str_ REG_EXTENDED then
    some ⟨p.file_name_not_regex_str_, REG_EXTENDED⟩
  else none

/-- `suppression_base::priv::get_soname_regex`. -/
def get_soname_regex (env : regex_env) (p : suppression_base_priv) :
    Option regex_t :=
  if p.soname_regex_str_ = "" then none
  else if env.regcomp_ok p.soname_regex_str_ REG_EXTENDED then
    some ⟨p.soname_regex_str_, REG_EXTENDED⟩
  else none

/-- `suppression_base::priv::get_soname_not_regex`. -/
def get_soname_not_regex (env : regex_env) (p : suppression_base_priv) :
    Option regex_t :=
  if p.soname_not_regex_str_ = "" then none
  else if env.regcomp_ok p.soname_not_regex_str_ REG_EXTENDED then
    some ⟨p.soname_not_regex_str_, REG_EXTENDED⟩
  else none

/-- `suppression_base::priv::matches_soname`: start with
`has_regexp = false`; if `get_soname_regex()` yields a regex, record
`has_regexp` and return false unless it matches; if `get_soname_not_regex()`
yields a regex, record `has_regexp` and return false if it matches; finally
return false when no regex was seen, true otherwise. -/
def matches_soname (env : regex_env) (p : suppression_base_priv)
    (soname : String) : Bool :=
  match get_soname_regex env p with
  | some regexp =>
    if ¬ regexec_match env regexp soname then false
    else
      match get_soname_not_regex env p with
      | some regexp2 =>
        if regexec_match env regexp2 soname then false else true
      | none => true
  | none =>
    match get_soname_not_regex env p with
    | some regexp2 =>
      if regexec_match env regexp2 soname then false else true
    | none => false

/-- `suppression_base::priv::matches_binary_name`: same control flow as
`matches_soname`, over the file-name regex pair. -/
def matches_binary_name (env : regex_env) (p : suppression_base_priv)
    (binary_name : String) : Bool :=
  match get_file_name_regex env p with
  | some regexp =>
    if ¬ regexec_match env regexp binary_name then false
    else
      match get_file_name_not_regex env p with
      | some regexp2 =>
        if regexec_match env regexp2 binary_name then false else true
      | none => true
  | none =>
    match get_file_name_not_regex env p with
    | some regexp2 =>
      if regexec_match env regexp2 binary_name then false else true
    | none => false

/-- The private data of `function_suppression` (`function_suppression::priv`):
name, symbol-name and symbol-version criteria, each with plain-string and
regex-string forms (the regexes cached lazily in the source). -/
structure function_suppression_priv where
  name_ : String
  name_regex_str_ : String
  name_not_regex_str_ : String
  return_type_name_ : String
  return_type_regex_str_ : String
  symbol_name_ : String
  symbol_name_regex_str_ : String
  symbol_name_not_regex_str_ : String
  symbol_version_ : String
  symbol_version_regex_str_ : String
  allow_other_aliases_ : Bool
deriving DecidableEq

/-- The default-constructed `function_suppression::priv` (strings empty,
`allow_other_aliases_` true). -/
def function_suppression_priv_default : function_suppression_priv :=
  ⟨"", "", "", "", "", "", "", "", "", "", true⟩

/-- `function_suppression::priv::get_name_regex`: compile
`name_regex_str_` (when non-empty) with `REG_EXTENDED`, caching only on
`regcomp` success. -/
def fs_get_name_regex (env : regex_env) (p : function_suppression_priv) :
    Option regex_t :=
  if p.name_regex_str_ = "" then none
  else if env.regcomp_ok p.name_regex_str_ REG_EXTENDED then
    some ⟨p.name_regex_str_, REG_EXTENDED⟩
  else none

/-- `function_suppression::priv::get_name_not_regex`. -/
def fs_get_name_not_regex (env : regex_env) (p : function_suppression_priv) :
    Option regex_t :=
  if p.name_not_regex_str_ = "" then none
  else if env.regcomp_ok p.name_not_regex_str_ REG_EXTENDED then
    some ⟨p.name_not_regex_str_, REG_EXTENDED⟩
  else none

/-- `function_suppression::priv::get_return_type_regex`. -/
def fs_get_return_type_regex (env : regex_env)
    (p : function_suppression_priv) : Option regex_t :=
  if p.return_type_regex_str_ = "" then none
  else if env.regcomp_ok p.return_type_regex_str_ REG_EXTENDED then
    some ⟨p.return_type_regex_str_, REG_EXTENDED⟩
  else none

/-- `function_suppression::priv::get_symbol_name_regex`. -/
def fs_get_symbol_name_regex (env : regex_env)
    (p : function_suppression_priv) : Option regex_t :=
  if p.symbol_name_regex_str_ = "" then none
  else if env.regcomp_ok p.symbol_name_regex_str_ REG_EXTENDED then
    some ⟨p.symbol_name_regex_str_, REG_EXTENDED⟩
  else none

/-- `function_suppression::priv::get_symbol_name_not_regex`. -/
def fs_get_symbol_name_not_regex (env : regex_env)
    (p : function_suppression_priv) : Option regex_t :=
  if p.symbol_name_not_regex_str_ = "" then none
  else if env.regcomp_ok p.symbol_name_not_regex_str_ REG_EXTENDED then
    some ⟨p.symbol_name_not_regex_str_, REG_EXTENDED⟩
  else none

/-- `function_suppression::priv::get_symbol_version_regex`. -/
def fs_get_symbol_version_regex (env : regex_env)
    (p : function_suppression_priv) : Option regex_t :=
  if p.symbol_version_regex_str_ = "" then none
  else if env.regcomp_ok p.symbol_version_regex_str_ REG_EXTENDED then
    some ⟨p.symbol_version_regex_str_, REG_EXTENDED⟩
  else none

/-- The private data of `variable_suppression` (`variable_suppression::priv`). -/
structure variable_suppression_priv where
  name_ : String
  name_regex_str_ : String
  name_not_regex_str_ : String
  symbol_name_ : String
  symbol_name_regex_str_ : String
  symbol_name_not_regex_str_ : String
  symbol_version_ : String
  symbol_version_regex_str_ : String
  type_name_ : String
  type_name_regex_str_ : String
deriving DecidableEq

/-- A `variable_suppression::priv` with every string criterion empty. -/
def variable_suppression_priv_default : variable_suppression_priv :=
  ⟨"", "", "", "", "", "", "", "", "", ""⟩

/-- `variable_suppression::priv::get_name_regex`. -/
def vs_get_name_regex (env : regex_env) (p : variable_suppression_priv) :
    Option regex_t :=
  if p.name_regex_str_ = "" then none
  else if env.regcomp_ok p.name_regex_str_ REG_EXTENDED then
    some ⟨p.name_regex_str_, REG_EXTENDED⟩
  else none

/-- `variable_suppression::priv::get_name_not_regex`. -/
def vs_get_name_not_regex (env : regex_env) (p : variable_suppression_priv) :
    Option regex_t :=
  if p.name_not_regex_str_ = "" then none
  else if env.regcomp_ok p.name_not_regex_str_ REG_EXTENDED then
    some ⟨p.name_not_regex_str_, REG_EXTENDED⟩
  else none

/-- `variable_suppression::priv::get_symbol_name_regex`. -/
def vs_get_symbol_name_regex (env : regex_env)
    (p : variable_suppression_priv) : Option regex_t :=
  if p.symbol_name_regex_str_ = "" then none
  else if env.regcomp_ok p.symbol_name_regex_str_ REG_EXTENDED then
    some ⟨p.symbol_name_regex_str_, REG_EXTENDED⟩
  else none

/-- `variable_suppression::priv::get_symbol_name_not_regex`.

The source (abg-suppression-priv.h, lines 679-685) passes the third
argument of `regcomp` as the C++ expression `REG_EXTENDED == 0`: a bool
comparison (false, since `REG_EXTENDED` is non-zero) that converts to the
integer 0, so the pattern is compiled with `cflags = 0` (POSIX *basic*
regex syntax) instead of `REG_EXTENDED`.  The embedding translates that
expression literally. -/
def vs_get_symbol_name_not_regex (env : regex_env)
    (p : variable_suppression_priv) : Option regex_t :=
  if p.symbol_name_not_regex_str_ = "" then none
  else if env.regcomp_ok p.symbol_name_not_regex_str_
      (if REG_EXTENDED = 0 then 1 else 0) then
    some ⟨p.symbol_name_not_regex_str_, if REG_EXTENDED = 0 then 1 else 0⟩
  else none

/-- `variable_suppression::priv::get_symbol_version_regex`. -/
def vs_get_symbol_version_regex (env : regex_env)
    (p : variable_suppression_priv) : Option regex_t :=
  if p.symbol_version_regex_str_ = "" then none
  else if env.regcomp_ok p.symbol_version_regex_str_ REG_EXTENDED then
    some ⟨p.symbol_version_regex_str_, REG_EXTENDED⟩
  else none

/-- `variable_suppression::priv::get_type_name_regex`. -/
def vs_get_type_name_regex (env : regex_env)
    (p : variable_suppression_priv) : Option regex_t :=
  if p.type_name_regex_str_ = "" then none
  else if env.regcomp_ok p.type_name_regex_str_ REG_EXTENDED then
    some ⟨p.type_name_regex_str_, REG_EXTENDED⟩
  else none

/-- The `type_kind` enumeration of `type_suppression`. -/
inductive type_kind where
  | UNKNOWN_TYPE_KIND
  | CLASS_TYPE_KIND
  | STRUCT_TYPE_KIND
  | UNION_TYPE_KIND
  | ENUM_TYPE_KIND
  | ARRAY_TYPE_KIND
  | TYPEDEF_TYPE_KIND
  | BUILTIN_TYPE_KIND
deriving DecidableEq

/-- The `reach_kind` enumeration of `type_suppression` (whether the rule
applies to directly or only transitively reachable types). -/
inductive reach_kind where
  | DIRECT_REACH_KIND
  | POINTER_REACH_KIND
  | REFERENCE_REACH_KIND
  | REFERENCE_OR_POINTER_REACH_KIND
deriving DecidableEq

/-- The private data of `type_suppression` (`type_suppression::priv`),
without the insertion-range and changed-enumerator machinery that no claim
touches. -/
structure type_suppression_priv where
  type_name_regex_str_ : String
  type_name_ : String
  type_name_not_regex_str_ : String
  consider_type_kind_ : Bool
  type_kind_ : type_kind
  consider_reach_kind_ : Bool
  reach_kind_ : reach_kind
  source_locations_to_keep_ : List String
  source_location_to_keep_regex_str_ : String
deriving DecidableEq

/-- A `type_suppression::priv` with every criterion empty / disabled. -/
def type_suppression_priv_default : type_suppression_priv :=
  ⟨"", "", "", false, type_kind.UNKNOWN_TYPE_KIND, false,
   reach_kind.DIRECT_REACH_KIND, [], ""⟩

/-- `type_suppression::priv::get_type_name_regex`. -/
def ts_get_type_name_regex (env : regex_env) (p : type_suppression_priv) :
    Option regex_t :=
  if p.type_name_regex_str_ = "" then none
  else if env.regcomp_ok p.type_name_regex_str_ REG_EXTENDED then
    some ⟨p.type_name_regex_str_, REG_EXTENDED⟩
  else none

/-- `type_suppression::priv::get_type_name_not_regex`. -/
def ts_get_type_name_not_regex (env : regex_env) (p : type_suppression_priv) :
    Option regex_t :=
  if p.type_name_not_regex_str_ = "" then none
  else if env.regcomp_ok p.type_name_not_regex_str_ REG_EXTENDED then
    some ⟨p.type_name_not_regex_str_, REG_EXTENDED⟩
  else none

/-- `type_suppression::priv::get_source_location_to_keep_regex`. -/
def ts_get_source_location_to_keep_regex (env : regex_env)
    (p : type_suppression_priv) : Option regex_t :=
  if p.source_location_to_keep_regex_str_ = "" then none
  else if env.regcomp_ok p.source_location_to_keep_regex_str_ REG_EXTENDED then
    some ⟨p.source_location_to_keep_regex_str_, REG_EXTENDED⟩
  else none

/-- A suppression specification: the `suppression_base` data together with
the variant payload.  `function_suppression`, `variable_suppression` and
`type_suppression` all derive from `suppression_base`; the dynamic casts
`is_function_suppression` / `is_variable_suppression` /
`is_type_suppression` become variant tests on this sum. -/
inductive suppression where
  | fn : suppression_base_priv → function_suppression_priv → suppression
  | var : suppression_base_priv → variable_suppression_priv → suppression
  | ty : suppression_base_priv → type_suppression_priv → suppression
deriving DecidableEq

/-- `suppression_base::get_drops_artifact_from_ir`: the `drops_artifact_`
flag of the base data. -/
def suppression.get_drops_artifact_from_ir : suppression → Bool
  | suppression.fn b _ => b.drops_artifact_
  | suppression.var b _ => b.drops_artifact_
  | suppression.ty b _ => b.drops_artifact_

/-- `is_function_suppression`: the dynamic cast of a suppression to
`function_suppression`, nil unless the suppression is of that variant. -/
def is_function_suppression :
    suppression → Option (suppression_base_priv × function_suppression_priv)
  | suppression.fn b p => some (b, p)
  | _ => none

/-- `is_variable_suppression`. -/
def is_variable_suppression :
    suppression → Option (suppression_base_priv × variable_suppression_priv)
  | suppression.var b p => some (b, p)
  | _ => none

/-- `is_type_suppression`. -/
def is_type_suppression :
    suppression → Option (suppression_base_priv × type_suppression_priv)
  | suppression.ty b p => some (b, p)
  | _ => none

/-- The label carried by the artificial suppression that implements the
"private types" policy. -/
def PRIVATE_TYPES_SUPPR_SPEC_LABEL : String :=
  "Artificial private types suppression specification"

/-- Modelled from the spec: `is_private_type_suppr_spec` is declared in
abg-suppression.h and defined outside the files under verification; the
spec describes it as recognising the suppressions that implement the
"private type" policy, "distinct from ordinary filtering".  It is modelled
as a test of the suppression's label against the distinguished private-types
label. -/
def is_private_type_suppr_spec (b : suppression_base_priv)
    (_p : type_suppression_priv) : Bool :=
  b.label_ = PRIVATE_TYPES_SUPPR_SPEC_LABEL

/-- A source location (`abigail::location`).  Its structure is irrelevant to
the suppression engine, which only forwards it to the name-or-location
matcher; a line number stands in for the full datum. -/
structure location where
  line : Nat
deriving DecidableEq

/-- The reading context (the `ReadContextType` template parameter of the
composite test functions).  It carries the registered suppressions
(`get_suppressions()`) and the per-variant matching services that the
composite tests invoke on it (`suppression_matches_function_name`,
`suppression_matches_function_sym_name`, and so on), which are methods of
the concrete context type and external to the engine. -/
structure read_context where
  suppressions : List suppression
  suppression_matches_function_name :
    suppression_base_priv → function_suppression_priv → String → Bool
  suppression_matches_function_sym_name :
    suppression_base_priv → function_suppression_priv → String → Bool
  suppression_matches_variable_name :
    suppression_base_priv → variable_suppression_priv → String → Bool
  suppression_matches_variable_sym_name :
    suppression_base_priv → variable_suppression_priv → String → Bool
  suppression_matches_type_name_or_location :
    suppression_base_priv → type_suppression_priv → String → location → Bool

/-- The iteration of `function_is_suppressed` over the suppression list:
for each function suppression, skip it when `require_drop_property` is set
but the suppression does not drop the artifact from the IR; otherwise
return true when the declared name is non-empty and matches, or when the
linkage name is non-empty and matches. -/
def function_is_suppressed_loop (ctxt : read_context) (fn_name : String)
    (fn_linkage_name : String) (require_drop_property : Bool) :
    List suppression → Bool
  | [] => false
  | s :: rest =>
    match is_function_suppression s with
    | some (b, fp) =>
      if require_drop_property && !s.get_drops_artifact_from_ir then
        function_is_suppressed_loop ctxt fn_name fn_linkage_name
          require_drop_property rest
      else if fn_name != ""
          && ctxt.suppression_matches_function_name b fp fn_name then true
      else if fn_linkage_name != ""
          && ctxt.suppression_matches_function_sym_name b fp fn_linkage_name
        then true
      else
        function_is_suppressed_loop ctxt fn_name fn_linkage_name
          require_drop_property rest
    | none =>
      function_is_suppressed_loop ctxt fn_name fn_linkage_name
        require_drop_property rest

/-- `function_is_suppressed(ctxt, fn_name, fn_linkage_name,
require_drop_property)` (the `require_drop_property` parameter defaults to
false in the source). -/
def function_is_suppressed (ctxt : read_context) (fn_name : String)
    (fn_linkage_name : String) (require_drop_property : Bool) : Bool :=
  function_is_suppressed_loop ctxt fn_name fn_linkage_name
    require_drop_property ctxt.suppressions

/-- The iteration of `variable_is_suppressed` over the suppression list. -/
def variable_is_suppressed_loop (ctxt : read_context) (var_name : String)
    (var_linkage_name : String) (require_drop_property : Bool) :
    List suppression → Bool
  | [] => false
  | s :: rest =>
    match is_variable_suppression s with
    | some (b, vp) =>
      if require_drop_property && !s.get_drops_artifact_from_ir then
        variable_is_suppressed_loop ctxt var_name var_linkage_name
          require_drop_property rest
      else if var_name != ""
          && ctxt.suppression_matches_variable_name b vp var_name then true
      else if var_linkage_name != ""
          && ctxt.suppression_matches_variable_sym_name b vp var_linkage_name
        then true
      else
        variable_is_suppressed_loop ctxt var_name var_linkage_name
          require_drop_property rest
    | none =>
      variable_is_suppressed_loop ctxt var_name var_linkage_name
        require_drop_property rest

/-- `variable_is_suppressed(ctxt, var_name, var_linkage_name,
require_drop_property)`. -/
def variable_is_suppressed (ctxt : read_context) (var_name : String)
    (var_linkage_name : String) (require_drop_property : Bool) : Bool :=
  variable_is_suppressed_loop ctxt var_name var_linkage_name
    require_drop_property ctxt.suppressions

/-- The iteration of the five-argument `type_is_suppressed` over the
suppression list.  The pair returned is (function result, final value of
the `type_is_private` out-parameter); `tip` is the value the out-parameter
holds when the loop is entered.  On a match the function returns true, and
the out-parameter is assigned true when the matching suppression is a
private-type specification and is left untouched otherwise; when the loop
falls through, the out-parameter is assigned false and the function
returns false. -/
def type_is_suppressed_loop (ctxt : read_context) (type_name : String)
    (type_location : location) (tip : Bool) (require_drop_property : Bool) :
    List suppression → Bool × Bool
  | [] => (false, false)
  | s :: rest =>
    match is_type_suppression s with
    | some (b, tp) =>
      if require_drop_property && !s.get_drops_artifact_from_ir then
        type_is_suppressed_loop ctxt type_name type_location tip
          require_drop_property rest
      else if ctxt.suppression_matches_type_name_or_location b tp type_name
          type_location then
        (true, if is_private_type_suppr_spec b tp then true else tip)
      else
        type_is_suppressed_loop ctxt type_name type_location tip
          require_drop_property rest
    | none =>
      type_is_suppressed_loop ctxt type_name type_location tip
        require_drop_property rest

/-- The five-argument `type_is_suppressed(ctxt, type_name, type_location,
type_is_private, require_drop_property)`: `tip` is the value of the
`type_is_private` out-parameter on entry; the result pairs the return
value with the out-parameter's value after the call. -/
def type_is_suppressed5 (ctxt : read_context) (type_name : String)
    (type_location : location) (tip : Bool) (require_drop_property : Bool) :
    Bool × Bool :=
  type_is_suppressed_loop ctxt type_name type_location tip
    require_drop_property ctxt.suppressions

/-- The three-argument `type_is_suppressed(ctxt, type_name, type_location)`
overload: declares a local `type_is_private = false` and calls the
five-argument form (with `require_drop_property` defaulted to false),
discarding the out-parameter. -/
def type_is_suppressed3 (ctxt : read_context) (type_name : String)
    (type_location : location) : Bool :=
  (type_is_suppressed5 ctxt type_name type_location false false).1

/-- The `elf_symbol::type` enumeration (from abg-ir.h). -/
inductive elf_symbol_type where
  | NOTYPE_TYPE
  | OBJECT_TYPE
  | FUNC_TYPE
  | SECTION_TYPE
  | FILE_TYPE
  | COMMON_TYPE
  | TLS_TYPE
  | GNU_IFUNC_TYPE
deriving DecidableEq

/-- Modelled from the spec: `elf_symbol_is_function` is defined outside the
files under verification; per the spec's data model an ELF symbol's kind is
one of function / variable / tls / ifunc, and this predicate recognises the
function kind (`FUNC_TYPE`). -/
def elf_symbol_is_function (t : elf_symbol_type) : Bool :=
  t = elf_symbol_type.FUNC_TYPE

/-- Modelled from the spec: `elf_symbol_is_variable` is defined outside the
files under verification; it recognises the variable (`OBJECT_TYPE`)
kind. -/
def elf_symbol_is_variable (t : elf_symbol_type) : Bool :=
  t = elf_symbol_type.OBJECT_TYPE

/-- `is_elf_symbol_suppressed(ctxt, sym_name, sym_type)`: dispatch to
`function_is_suppressed` (resp. `variable_is_suppressed`) with an empty
declared name and `sym_name` as the symbol name when the ELF type is a
function (resp. variable) type, and return false otherwise.  Both callees
take their defaulted `require_drop_property = false`. -/
def is_elf_symbol_suppressed (ctxt : read_context) (sym_name : String)
    (sym_type : elf_symbol_type) : Bool :=
  if elf_symbol_is_function sym_type then
    function_is_suppressed ctxt "" sym_name false
  else if elf_symbol_is_variable sym_type then
    variable_is_suppressed ctxt "" sym_name false
  else false

/-- An ELF symbol as the symtab reader sees it: identity (name and
version, which make up the sort id) and the properties set at creation
and consulted through the `elf_symbol` accessors (`is_function()`,
`is_variable()`, `is_public()`, `is_defined()`, `is_common_symbol()`,
`is_in_ksymtab()`, `is_suppressed()`).  The accessors themselves live in
abg-ir.cc, outside the files under verification, so their values are
carried as stored boolean properties; the alias / common-instance links
and the numeric fields, which no claim touches, are omitted. -/
structure elf_symbol where
  name_ : String
  version_ : String
  is_function_ : Bool
  is_variable_ : Bool
  is_public_ : Bool
  is_defined_ : Bool
  is_common_ : Bool
  is_in_ksymtab_ : Bool
  is_suppressed_ : Bool
deriving DecidableEq

/-- `elf_symbol_sptr`: a possibly-null shared pointer to an ELF symbol. -/
def elf_symbol_sptr : Type := Option elf_symbol

instance : DecidableEq elf_symbol_sptr := by
  unfold elf_symbol_sptr
  infer_instance

/-- `symtab_filter`: a conjunction of five optional boolean predicates;
an unset (`none`) predicate does not constrain the match. -/
structure symtab_filter where
  functions_ : Option Bool
  variables_ : Option Bool
  public_symbols_ : Option Bool
  undefined_symbols_ : Option Bool
  kernel_symbols_ : Option Bool
deriving DecidableEq

/-- The default-constructed `symtab_filter`, with all five predicates
unset. -/
def symtab_filter_default : symtab_filter :=
  ⟨none, none, none, none, none⟩

/-- One clause `if (o && *o != symbol->prop()) return false;` of
`symtab_filter::matches` (abg-writer.cc, lines 4553-4562).  The result is
`some true` when the clause falls through, `some false` when it returns
false, and `none` when the clause evaluates `symbol->prop()` on a null
pointer — undefined behaviour in the C++.  An unset optional short-circuits
the `&&` before the dereference. -/
def clause_ne (o : Option Bool) (symbol : elf_symbol_sptr)
    (prop : elf_symbol → Bool) : Option Bool :=
  match o with
  | none => some true
  | some b =>
    match symbol with
    | none => none
    | some sym => if b != prop sym then some false else some true

/-- The `undefined_symbols_` clause, which compares with `==` against
`symbol->is_defined()` instead of `!=` (line 4559). -/
def clause_eq (o : Option Bool) (symbol : elf_symbol_sptr)
    (prop : elf_symbol → Bool) : Option Bool :=
  match o with
  | none => some true
  | some b =>
    match symbol with
    | none => none
    | some sym => if b == prop sym then some false else some true

/-- Sequencing of two clauses: an earlier undefined dereference or early
`return false` decides the call before a later clause runs. -/
def and_then : Option Bool → Option Bool → Option Bool
  | none, _ => none
  | some false, _ => some false
  | some true, r => r

/-- `symtab_filter::matches(const elf_symbol_sptr&)` (abg-writer.cc, lines
4550-4565; the overload the header under verification declares): the five
clauses in source order — functions, variables, public symbols, undefined
symbols (tested with `==` against `is_defined()`), kernel symbols — each
returning false on a mismatch of a set predicate, with `true` reached when
all clauses fall through.  The value is `none` when the C++ would
dereference a null `symbol`, i.e. when the first set predicate is reached
with a null pointer. -/
def symtab_filter.matches (f : symtab_filter) (symbol : elf_symbol_sptr) :
    Option Bool :=
  and_then (clause_ne f.functions_ symbol elf_symbol.is_function_)
    (and_then (clause_ne f.variables_ symbol elf_symbol.is_variable_)
      (and_then (clause_ne f.public_symbols_ symbol elf_symbol.is_public_)
        (and_then (clause_eq f.undefined_symbols_ symbol elf_symbol.is_defined_)
          (clause_ne f.kernel_symbols_ symbol elf_symbol.is_in_ksymtab_))))

/-- The boolean value `matches` computes on a non-null symbol: the
conjunction of the per-clause pass conditions (`clause_pass_ne` /
`clause_pass_eq` below). -/
def clause_pass_ne (o : Option Bool) (v : Bool) : Bool :=
  match o with
  | none => true
  | some b => b == v

/-- Pass condition of the `undefined_symbols_` clause on a non-null
symbol. -/
def clause_pass_eq (o : Option Bool) (v : Bool) : Bool :=
  match o with
  | none => true
  | some b => b != v

/-- The total boolean function `matches` restricts to on non-null
symbols. -/
def matches_bool (f : symtab_filter) (sym : elf_symbol) : Bool :=
  clause_pass_ne f.functions_ sym.is_function_
  && clause_pass_ne f.variables_ sym.is_variable_
  && clause_pass_ne f.public_symbols_ sym.is_public_
  && clause_pass_eq f.undefined_symbols_ sym.is_defined_
  && clause_pass_ne f.kernel_symbols_ sym.is_in_ksymtab_

/-- `symtab_filter_builder`: holds a local `symtab_filter` instance that
fluent setters modify and that conversion hands out. -/
structure symtab_filter_builder where
  filter_ : symtab_filter
deriving DecidableEq

/-- A default-constructed `symtab_filter_builder`: its local filter is
default-constructed. -/
def symtab_filter_builder_default : symtab_filter_builder :=
  ⟨symtab_filter_default⟩

/-- `symtab_filter_builder::functions(value)`. -/
def symtab_filter_builder.functions (b : symtab_filter_builder)
    (value : Bool) : symtab_filter_builder :=
  ⟨{ b.filter_ with functions_ := some value }⟩

/-- `symtab_filter_builder::variables(value)`. -/
def symtab_filter_builder.variables (b : symtab_filter_builder)
    (value : Bool) : symtab_filter_builder :=
  ⟨{ b.filter_ with variables_ := some value }⟩

/-- `symtab_filter_builder::public_symbols(value)`. -/
def symtab_filter_builder.public_symbols (b : symtab_filter_builder)
    (value : Bool) : symtab_filter_builder :=
  ⟨{ b.filter_ with public_symbols_ := some value }⟩

/-- `symtab_filter_builder::undefined_symbols(value)`. -/
def symtab_filter_builder.undefined_symbols (b : symtab_filter_builder)
    (value : Bool) : symtab_filter_builder :=
  ⟨{ b.filter_ with undefined_symbols_ := some value }⟩

/-- `symtab_filter_builder::kernel_symbols(value)`. -/
def symtab_filter_builder.kernel_symbols (b : symtab_filter_builder)
    (value : Bool) : symtab_filter_builder :=
  ⟨{ b.filter_ with kernel_symbols_ := some value }⟩

/-- `symtab_filter_builder::operator symtab_filter()`: conversion returns
the locally built filter. -/
def symtab_filter_builder.to_filter (b : symtab_filter_builder) :
    symtab_filter :=
  b.filter_

/-- `symtab_iterator::skip_to_next`: advance while the current position is
not `end_` and the element there does not match the filter.  The iterator
state is modelled by the remaining range, the suffix of the underlying
vector from the current position to `end_`, so `end_` is the empty
suffix; `none` propagates an undefined `matches` call (null dereference)
out of the whole run. -/
def skip_to_next (filter : symtab_filter) :
    List elf_symbol_sptr → Option (List elf_symbol_sptr)
  | [] => some []
  | s :: rest =>
    match filter.matches s with
    | none => none
    | some true => some (s :: rest)
    | some false => skip_to_next filter rest

/-- The `symtab_iterator(begin, end, filter)` constructor: store the range
and immediately fast-forward to the first matching element. -/
def symtab_iterator_mk (filter : symtab_filter)
    (range : List elf_symbol_sptr) : Option (List elf_symbol_sptr) :=
  skip_to_next filter range

/-- `symtab_iterator::operator++()`: advance the base iterator once, then
skip to the next matching element.  (Incrementing the end iterator is
undefined in C++; the model keeps it at end.) -/
def symtab_iterator_inc (filter : symtab_filter) :
    List elf_symbol_sptr → Option (List elf_symbol_sptr)
  | [] => some []
  | _ :: rest => skip_to_next filter rest

/-- `n` applications of `operator++` to an iterator state, propagating an
undefined `matches` call. -/
def symtab_iterate (filter : symtab_filter) :
    Nat → List elf_symbol_sptr → Option (List elf_symbol_sptr)
  | 0, it => some it
  | n + 1, it =>
    match symtab_iterator_inc filter it with
    | none => none
    | some it2 => symtab_iterate filter n it2

/-- The iterator state reached by constructing a `symtab_iterator` on
`range` and applying `operator++` `n` times; `none` when the C++ run is
undefined (a null pointer met a set predicate). -/
def symtab_iter_state (filter : symtab_filter) (n : Nat)
    (range : List elf_symbol_sptr) : Option (List elf_symbol_sptr) :=
  match symtab_iterator_mk filter range with
  | none => none
  | some it => symtab_iterate filter n it

/-- The id string a symbol is sorted by (name plus version). -/
def elf_symbol.id_string (s : elf_symbol) : String :=
  s.name_ ++ "@" ++ s.version_

/-- The comparison used to sort the symbols_ vector deterministically:
compare id strings. -/
def id_le (a b : elf_symbol) : Bool :=
  a.id_string ≤ b.id_string

/-- Insertion of a symbol into an id-sorted list (one step of the stable
sort of the symbols_ vector). -/
def sorted_insert (x : elf_symbol) : List elf_symbol → List elf_symbol
  | [] => [x]
  | y :: ys => if id_le x y then x :: y :: ys else y :: sorted_insert x ys

/-- Stable sort of the symbols_ vector by id string. -/
def sort_by_id : List elf_symbol → List elf_symbol
  | [] => []
  | x :: xs => sorted_insert x (sort_by_id xs)

/-- The parts of a loaded `symtab` the load invariants speak about: the
ordered symbols_ vector and the name→symbols lookup map (as the function
from a name to the symbols filed under it).  The addr→symbol maps, which
feed only the address lookups, are omitted. -/
structure symtab where
  symbols_ : List elf_symbol
  name_symbol_map_ : String → List elf_symbol

/-- One entry of the ELF `.symtab` section, as `symtab::load_` sees it
after the external gelf / elf_helpers calls: the resolved name
(`elf_strptr` result, `none` modelling a NULL name pointer), the `STT_*`
symbol type, the `st_shndx` classification, and the properties that
`elf_symbol::create`'s external helper arguments determine (version,
public-ness from binding/visibility, and the function/variable
classification per the abg-ir accessors). -/
structure elf_sym_entry where
  name_str : Option String
  sym_type : elf_symbol_type
  st_shndx_is_abs : Bool
  st_shndx_is_undef : Bool
  st_shndx_is_common : Bool
  version_ : String
  is_function_ : Bool
  is_variable_ : Bool
  is_public_ : Bool
deriving DecidableEq

/-- The entry filter of `symtab::load_` (abg-writer.cc, lines 4720-4728):
keep only FUNC, GNU_IFUNC, OBJECT-with-non-absolute-section and TLS
entries. -/
def interesting_entry_type (e : elf_sym_entry) : Bool :=
  e.sym_type == elf_symbol_type.FUNC_TYPE
  || e.sym_type == elf_symbol_type.GNU_IFUNC_TYPE
  || (e.sym_type == elf_symbol_type.OBJECT_TYPE && !e.st_shndx_is_abs)
  || e.sym_type == elf_symbol_type.TLS_TYPE

/-- `elf_symbol::create` as `symtab::load_` calls it (abg-writer.cc,
lines 4737-4744): the symbol's defined flag is `st_shndx != SHN_UNDEF`,
the common flag is `st_shndx == SHN_COMMON`, the ksymtab and suppressed
flags start false. -/
def elf_symbol_create (name : String) (e : elf_sym_entry) : elf_symbol :=
  ⟨name, e.version_, e.is_function_, e.is_variable_, e.is_public_,
   !e.st_shndx_is_undef, e.st_shndx_is_common, false, false⟩

/-- The per-entry skip ladder of `symtab::load_` (abg-writer.cc, lines
4687-4744): skip entries with no name, Linux-kernel `__ksymtab_` marker
entries, and entries of uninteresting type; the rest become symbols. -/
def entry_to_symbol (is_kernel : Bool) (e : elf_sym_entry) :
    Option elf_symbol :=
  match e.name_str with
  | none => none
  | some name =>
    if is_kernel && name.startsWith "__ksymtab_" then none
    else if !(interesting_entry_type e) then none
    else some (elf_symbol_create name e)

/-- The exported-name a Linux-kernel `__ksymtab_` marker entry records
(abg-writer.cc, lines 4711-4716): the entry's name with the 10-character
marker dropped. -/
def entry_ksymtab_export (is_kernel : Bool) (e : elf_sym_entry) :
    Option String :=
  match e.name_str with
  | none => none
  | some name =>
    if is_kernel && name.startsWith "__ksymtab_" then some (name.drop 10)
    else none

/-- `symtab::symbol_predicate`: a possibly-null function pointer. -/
def symbol_predicate : Type := Option (elf_symbol → Bool)

/-- The test `is_suppressed && is_suppressed(symbol_sptr)` of
`symtab::load_` (abg-writer.cc, line 4749): a null predicate
short-circuits to false. -/
def pred_app (is_suppressed : symbol_predicate) (s : elf_symbol) : Bool :=
  match is_suppressed with
  | none => false
  | some p => p s

/-- The state of a discovered symbol after the suppressed dispatch of
`symtab::load_` (abg-writer.cc, lines 4749-4753): `set_is_suppressed(true)`
is called exactly on the symbols the predicate holds of; the others keep
their as-created flag. -/
def load_flag (is_suppressed : symbol_predicate) (s : elf_symbol) :
    elf_symbol :=
  if pred_app is_suppressed s then { s with is_suppressed_ := true } else s

/-- The ksymtab-attribute pass of `symtab::load_` (abg-writer.cc, lines
4791-4810), seen from one symbol: a public symbol whose name is in the
exported-kernel-symbols set gets its in-ksymtab flag set.  In the C++ the
pass mutates the shared symbol objects through the name map, so the same
update is visible from every container holding the symbol. -/
def apply_ksymtab_flag (exported : List String) (s : elf_symbol) :
    elf_symbol :=
  if exported.contains s.name_ && s.is_public_ then
    { s with is_in_ksymtab_ := true }
  else s

/-- `symtab::load_(elf_handle, env, is_suppressed)` (abg-writer.cc, lines
4640-4816), over the entry list the ELF plumbing yields: each entry is
skipped or becomes a symbol; a symbol is pushed onto the symbols_ vector
when the suppressed-predicate rejects it and is flagged suppressed
otherwise; every symbol is pushed onto its name's bucket of the
name→symbols map; the ksymtab pass then flags exported public symbols in
place (visible through both containers, which share the symbols), and the
symbols_ vector is finally sorted by id string.  The addr→symbol map and
alias / common-instance linking, which touch neither container's
membership, are omitted. -/
def symtab_load_ (is_kernel : Bool) (is_suppressed : symbol_predicate)
    (entries : List elf_sym_entry) : symtab :=
  { symbols_ := sort_by_id
      ((((entries.filterMap (entry_to_symbol is_kernel)).filter
          (fun s => !(pred_app is_suppressed s))).map
        (apply_ksymtab_flag (entries.filterMap
          (entry_ksymtab_export is_kernel))))),
    name_symbol_map_ := fun n =>
      ((((entries.filterMap (entry_to_symbol is_kernel)).map
          (load_flag is_suppressed)).filter
          (fun s => s.name_ == n)).map
        (apply_ksymtab_flag (entries.filterMap
          (entry_ksymtab_export is_kernel)))) }

/-- The decision one iteration of `function_is_suppressed` takes on a
single suppression: true when the suppression is a function suppression,
survives the `require_drop_property` screen, and matches the (non-empty)
declared name or the (non-empty) linkage name. -/
def fn_suppr_decides (ctxt : read_context) (fn_name : String)
    (fn_linkage_name : String) (require_drop_property : Bool) :
    suppression → Bool
  | suppression.fn b fp =>
    !(require_drop_property && !b.drops_artifact_)
    && ((fn_name != "" && ctxt.suppression_matches_function_name b fp fn_name)
        || (fn_linkage_name != ""
            && ctxt.suppression_matches_function_sym_name b fp
                fn_linkage_name))
  | _ => false

/-- The decision one iteration of `variable_is_suppressed` takes on a
single suppression. -/
def var_suppr_decides (ctxt : read_context) (var_name : String)
    (var_linkage_name : String) (require_drop_property : Bool) :
    suppression → Bool
  | suppression.var b vp =>
    !(require_drop_property && !b.drops_artifact_)
    && ((var_name != "" && ctxt.suppression_matches_variable_name b vp var_name)
        || (var_linkage_name != ""
            && ctxt.suppression_matches_variable_sym_name b vp
                var_linkage_name))
  | _ => false

/-- The verdict of the first type suppression that decides a
`type_is_suppressed` call: `none` when no type suppression both survives
the `require_drop_property` screen and matches the name or location, and
otherwise `some b` where `b` says whether that first deciding suppression
is a private-type specification. -/
def first_deciding_type_suppr (ctxt : read_context) (type_name : String)
    (type_location : location) (require_drop_property : Bool) :
    List suppression → Option Bool
  | [] => none
  | s :: rest =>
    match is_type_suppression s with
    | some (b, tp) =>
      if require_drop_property && !s.get_drops_artifact_from_ir then
        first_deciding_type_suppr ctxt type_name type_location
          require_drop_property rest
      else if ctxt.suppression_matches_type_name_or_location b tp type_name
          type_location then
        some (is_private_type_suppr_spec b tp)
      else
        first_deciding_type_suppr ctxt type_name type_location
          require_drop_property rest
    | none =>
      first_deciding_type_suppr ctxt type_name type_location
        require_drop_property rest

/-- A concrete regex environment in which every pattern compiles (under any
flags) and a compiled pattern matches exactly the subject equal to it.
This is consistent with POSIX behaviour on the literal patterns used
below: `regcomp` accepts them and `regexec("abc", "xyz")` reports no
match. -/
def env_eq : regex_env :=
  ⟨fun _ _ => true, fun pat _ s => pat == s⟩

/-- A concrete regex environment in which `regcomp` rejects exactly the
pattern consisting of a lone opening parenthesis (as POSIX extended regex
compilation does) and matching is by string equality. -/
def env_fail : regex_env :=
  ⟨fun pat _ => pat != "(", fun pat _ s => pat == s⟩

/-- A concrete regex environment in which `regcomp` succeeds exactly when
called with the `REG_EXTENDED` flag. -/
def env_ext_only : regex_env :=
  ⟨fun _ flags => flags == REG_EXTENDED, fun _ _ _ => false⟩

/-- A concrete regex environment in which `regcomp` succeeds exactly when
called with `cflags = 0` (POSIX basic syntax). -/
def env_basic_only : regex_env :=
  ⟨fun _ flags => flags == 0, fun _ _ _ => false⟩

/-- A suppression base whose only SONAME-axis criterion is the negative
regex string "abc". -/
def base_only_not_soname : suppression_base_priv :=
  { suppression_base_priv_default with soname_not_regex_str_ := "abc" }

/-- A suppression base whose only SONAME-axis criterion is the positive
regex string "(", which fails to compile. -/
def base_bad_soname : suppression_base_priv :=
  { suppression_base_priv_default with soname_regex_str_ := "(" }

/-- A variable suppression with the symbol-name regex and symbol-name
not-regex criteria both set to the extended-syntax alternation "a|b". -/
def vp_alternation : variable_suppression_priv :=
  { variable_suppression_priv_default with
      symbol_name_regex_str_ := "a|b",
      symbol_name_not_regex_str_ := "a|b" }

/-- A reading context holding one function suppression (with default,
criterion-free data) and whose matching services match every name. -/
def ctxt_fn_all : read_context :=
  ⟨[suppression.fn suppression_base_priv_default
      function_suppression_priv_default],
   fun _ _ _ => true, fun _ _ _ => true, fun _ _ _ => true,
   fun _ _ _ => true, fun _ _ _ _ => true⟩

/-- A reading context holding one variable suppression and whose matching
services match every name. -/
def ctxt_var_all : read_context :=
  ⟨[suppression.var suppression_base_priv_default
      variable_suppression_priv_default],
   fun _ _ _ => true, fun _ _ _ => true, fun _ _ _ => true,
   fun _ _ _ => true, fun _ _ _ _ => true⟩

/-- A reading context holding one ordinary (non-private) type suppression
and whose matching services match every name and location. -/
def ctxt_ty_all : read_context :=
  ⟨[suppression.ty suppression_base_priv_default
      type_suppression_priv_default],
   fun _ _ _ => true, fun _ _ _ => true, fun _ _ _ => true,
   fun _ _ _ => true, fun _ _ _ _ => true⟩

/-- A sample location. -/
def loc0 : location := ⟨0⟩

/-- A sample ELF function symbol. -/
def sample_symbol : elf_symbol :=
  ⟨"foo", "v1", true, false, true, true, false, false, false⟩

/-- A sample ELF variable symbol. -/
def sample_variable : elf_symbol :=
  ⟨"bar", "v1", false, true, true, true, false, false, false⟩

/-- A functions-only filter, built through the builder. -/
def fn_filter : symtab_filter :=
  (symtab_filter_builder_default.functions true).to_filter

/-- A sample `.symtab` entry describing a defined public function named
"foo". -/
def entry0 : elf_sym_entry :=
  ⟨some "foo", elf_symbol_type.FUNC_TYPE, false, false, false, "v1",
   true, false, true⟩

/-- The shared control flow of `matches_soname` and `matches_binary_name`,
abstracted over the positive/negative compiled-regex pair: both functions
are definitionally instances of this combinator applied to their
respective getters. -/
def regex_pair_matches (env : regex_env) (pos neg : Option regex_t)
    (s : String) : Bool :=
  match pos with
  | some regexp =>
    if ¬ regexec_match env regexp s then false
    else
      match neg with
      | some regexp2 =>
        if regexec_match env regexp2 s then false else true
      | none => true
  | none =>
    match neg with
    | some regexp2 =>
      if regexec_match env regexp2 s then false else true
    | none => false

/-- The `require_drop_property` screen, as a boolean identity: a
suppression survives `if (require_drop_property && !drops) continue;`
exactly when `require_drop_property` implies the drops-artifact flag. -/
theorem drop_screen_iff (req d : Bool) :
    (req && !d) = false ↔ (req = true → d = true) := by
  cases req <;> cases d <;> simp

/-- `function_is_suppressed_loop` is the disjunction, over the suppression
list, of the per-suppression decision. -/
theorem fis_loop_eq_any (ctxt : read_context) (fn ln : String) (req : Bool)
    (l : List suppression) :
    function_is_suppressed_loop ctxt fn ln req l =
      l.any (fn_suppr_decides ctxt fn ln req) := by
  induction l with
  | nil => rfl
  | cons s rest ih =>
    cases s with
    | fn b fp =>
      simp only [function_is_suppressed_loop, is_function_suppression,
        List.any_cons, fn_suppr_decides, suppression.get_drops_artifact_from_ir]
      by_cases h1 : (req && !b.drops_artifact_) = true
      · simp [h1, ih]
      · by_cases h2 :
          (fn != "" && ctxt.suppression_matches_function_name b fp fn) = true
        · simp [h1, h2]
        · by_cases h3 : (ln != ""
              && ctxt.suppression_matches_function_sym_name b fp ln) = true
          · simp [h1, h2, h3]
          · simp [h1, h2, h3, ih]
    | var b vp =>
      simp only [function_is_suppressed_loop, is_function_suppression,
        List.any_cons, fn_suppr_decides, ih, Bool.false_or]
    | ty b tp =>
      simp only [function_is_suppressed_loop, is_function_suppression,
        List.any_cons, fn_suppr_decides, ih, Bool.false_or]

/-- `variable_is_suppressed_loop` is the disjunction, over the suppression
list, of the per-suppression decision. -/
theorem vis_loop_eq_any (ctxt : read_context) (vn ln : String) (req : Bool)
    (l : List suppression) :
    variable_is_suppressed_loop ctxt vn ln req l =
      l.any (var_suppr_decides ctxt vn ln req) := by
  induction l with
  | nil => rfl
  | cons s rest ih =>
    cases s with
    | var b vp =>
      simp only [variable_is_suppressed_loop, is_variable_suppression,
        List.any_cons, var_suppr_decides, suppression.get_drops_artifact_from_ir]
      by_cases h1 : (req && !b.drops_artifact_) = true
      · simp [h1, ih]
      · by_cases h2 :
          (vn != "" && ctxt.suppression_matches_variable_name b vp vn) = true
        · simp [h1, h2]
        · by_cases h3 : (ln != ""
              && ctxt.suppression_matches_variable_sym_name b vp ln) = true
          · simp [h1, h2, h3]
          · simp [h1, h2, h3, ih]
    | fn b fp =>
      simp only [variable_is_suppressed_loop, is_variable_suppression,
        List.any_cons, var_suppr_decides, ih, Bool.false_or]
    | ty b tp =>
      simp only [variable_is_suppressed_loop, is_variable_suppression,
        List.any_cons, var_suppr_decides, ih, Bool.false_or]

/-- Existential characterization of the `function_is_suppressed`
iteration over an arbitrary suppression list. -/
theorem fis_loop_iff (ctxt : read_context) (fn ln : String) (req : Bool)
    (l : List suppression) :
    function_is_suppressed_loop ctxt fn ln req l = true ↔
      ∃ b fp, suppression.fn b fp ∈ l
        ∧ (req = true → b.drops_artifact_ = true)
        ∧ ((fn ≠ "" ∧ ctxt.suppression_matches_function_name b fp fn = true)
           ∨ (ln ≠ ""
              ∧ ctxt.suppression_matches_function_sym_name b fp ln = true)) := by
  rw [fis_loop_eq_any]
  simp only [List.any_eq_true]
  constructor
  · rintro ⟨s, hs, hd⟩
    cases s with
    | fn b fp =>
      simp only [fn_suppr_decides, Bool.and_eq_true, Bool.or_eq_true,
        Bool.not_eq_true', drop_screen_iff, bne_iff_ne, ne_eq] at hd
      exact ⟨b, fp, hs, hd.1, hd.2⟩
    | var b vp => simp [fn_suppr_decides] at hd
    | ty b tp => simp [fn_suppr_decides] at hd
  · rintro ⟨b, fp, hmem, h1, h2⟩
    refine ⟨suppression.fn b fp, hmem, ?_⟩
    simp only [fn_suppr_decides, Bool.and_eq_true, Bool.or_eq_true,
      Bool.not_eq_true', drop_screen_iff, bne_iff_ne, ne_eq]
    exact ⟨h1, h2⟩

/-- Existential characterization of the `variable_is_suppressed`
iteration over an arbitrary suppression list. -/
theorem vis_loop_iff (ctxt : read_context) (vn ln : String) (req : Bool)
    (l : List suppression) :
    variable_is_suppressed_loop ctxt vn ln req l = true ↔
      ∃ b vp, suppression.var b vp ∈ l
        ∧ (req = true → b.drops_artifact_ = true)
        ∧ ((vn ≠ "" ∧ ctxt.suppression_matches_variable_name b vp vn = true)
           ∨ (ln ≠ ""
              ∧ ctxt.suppression_matches_variable_sym_name b vp ln = true)) := by
  rw [vis_loop_eq_any]
  simp only [List.any_eq_true]
  constructor
  · rintro ⟨s, hs, hd⟩
    cases s with
    | var b vp =>
      simp only [var_suppr_decides, Bool.and_eq_true, Bool.or_eq_true,
        Bool.not_eq_true', drop_screen_iff, bne_iff_ne, ne_eq] at hd
      exact ⟨b, vp, hs, hd.1, hd.2⟩
    | fn b fp => simp [var_suppr_decides] at hd
    | ty b tp => simp [var_suppr_decides] at hd
  · rintro ⟨b, vp, hmem, h1, h2⟩
    refine ⟨suppression.var b vp, hmem, ?_⟩
    simp only [var_suppr_decides, Bool.and_eq_true, Bool.or_eq_true,
      Bool.not_eq_true', drop_screen_iff, bne_iff_ne, ne_eq]
    exact ⟨h1, h2⟩

/-- The `type_is_suppressed` iteration, written as a function of the
verdict of the first deciding type suppression: no deciding suppression
means (false, out-parameter assigned false); a deciding private
suppression means (true, out-parameter assigned true); a deciding
ordinary suppression means (true, out-parameter left at its entry
value). -/
theorem tis_loop_eq (ctxt : read_context) (tn : String) (loc : location)
    (tip req : Bool) (l : List suppression) :
    type_is_suppressed_loop ctxt tn loc tip req l =
      match first_deciding_type_suppr ctxt tn loc req l with
      | none => (false, false)
      | some true => (true, true)
      | some false => (true, tip) := by
  induction l with
  | nil => rfl
  | cons s rest ih =>
    cases s with
    | fn b fp =>
      simpa only [type_is_suppressed_loop, first_deciding_type_suppr,
        is_type_suppression] using ih
    | var b vp =>
      simpa only [type_is_suppressed_loop, first_deciding_type_suppr,
        is_type_suppression] using ih
    | ty b tp =>
      simp only [type_is_suppressed_loop, first_deciding_type_suppr,
        is_type_suppression]
      by_cases h1 :
          (req && !(suppression.ty b tp).get_drops_artifact_from_ir) = true
      · simp only [h1, if_true, ih]
      · by_cases h2 : ctxt.suppression_matches_type_name_or_location b tp tn
            loc = true
        · by_cases h3 : is_private_type_suppr_spec b tp = true
          · simp [h1, h2, h3]
          · simp only [Bool.not_eq_true] at h3
            simp [h1, h2, h3]
        · simp [h1, h2, ih]

/-- A `!=`-clause applied to a non-null symbol is defined and passes
exactly when the optional, if set, equals the property. -/
theorem clause_ne_some_eq (o : Option Bool) (sym : elf_symbol)
    (prop : elf_symbol → Bool) :
    clause_ne o (some sym) prop = some (clause_pass_ne o (prop sym)) := by
  cases o with
  | none => rfl
  | some b => cases b <;> cases h : prop sym <;>
      simp [clause_ne, clause_pass_ne, h]

/-- The `==`-clause applied to a non-null symbol is defined and passes
exactly when the optional, if set, differs from the property. -/
theorem clause_eq_some_eq (o : Option Bool) (sym : elf_symbol)
    (prop : elf_symbol → Bool) :
    clause_eq o (some sym) prop = some (clause_pass_eq o (prop sym)) := by
  cases o with
  | none => rfl
  | some b => cases b <;> cases h : prop sym <;>
      simp [clause_eq, clause_pass_eq, h]

/-- On a non-null symbol, `matches` is defined and computes the clause
conjunction `matches_bool`. -/
theorem matches_some_eq (f : symtab_filter) (sym : elf_symbol) :
    f.matches (some sym) = some (matches_bool f sym) := by
  unfold symtab_filter.matches matches_bool
  rw [clause_ne_some_eq, clause_ne_some_eq, clause_ne_some_eq,
    clause_eq_some_eq, clause_ne_some_eq]
  cases h1 : clause_pass_ne f.functions_ sym.is_function_ <;>
    cases h2 : clause_pass_ne f.variables_ sym.is_variable_ <;>
      cases h3 : clause_pass_ne f.public_symbols_ sym.is_public_ <;>
        cases h4 : clause_pass_eq f.undefined_symbols_ sym.is_defined_ <;>
          cases h5 : clause_pass_ne f.kernel_symbols_ sym.is_in_ksymtab_ <;>
            simp [and_then]

/-- Fast-forwarding over a range of non-null symbols never hits undefined
behaviour. -/
theorem skip_total (filter : symtab_filter) (l : List elf_symbol_sptr)
    (hnn : ∀ x ∈ l, x ≠ none) :
    ∃ it, skip_to_next filter l = some it := by
  induction l with
  | nil => exact ⟨[], rfl⟩
  | cons s rest ih =>
    have hs : s ≠ none := hnn s (List.mem_cons_self s rest)
    obtain ⟨sym, rfl⟩ : ∃ sym, s = some sym :=
      Option.ne_none_iff_exists'.mp hs
    have hm := matches_some_eq filter sym
    cases hb : matches_bool filter sym with
    | true =>
      rw [hb] at hm
      exact ⟨some sym :: rest, by simp only [skip_to_next, hm]⟩
    | false =>
      rw [hb] at hm
      obtain ⟨it, hit⟩ := ih (fun x hx => hnn x (List.mem_cons_of_mem _ hx))
      exact ⟨it, by simp only [skip_to_next, hm, hit]⟩

/-- Iterating from the end iterator stays at the end. -/
theorem symtab_iterate_nil (filter : symtab_filter) (n : Nat) :
    symtab_iterate filter n [] = some [] := by
  induction n with
  | zero => rfl
  | succ k ih =>
    simp only [symtab_iterate, symtab_iterator_inc]
    exact ih

/-- The iterator run on an empty range is defined and stays at end. -/
theorem iter_state_nil (filter : symtab_filter) (n : Nat) :
    symtab_iter_state filter n [] = some [] := by
  simp only [symtab_iter_state, symtab_iterator_mk, skip_to_next]
  exact symtab_iterate_nil filter n

/-- Membership in one insertion step of the id sort. -/
theorem mem_sorted_insert (x a : elf_symbol) (l : List elf_symbol) :
    a ∈ sorted_insert x l ↔ a = x ∨ a ∈ l := by
  induction l with
  | nil => simp [sorted_insert]
  | cons y ys ih =>
    by_cases h : id_le x y = true
    · simp [sorted_insert, h, List.mem_cons]
    · simp only [sorted_insert, h, if_false, Bool.false_eq_true,
        List.mem_cons, ih]
      tauto

/-- Sorting the symbols_ vector by id preserves membership. -/
theorem mem_sort_by_id (a : elf_symbol) (l : List elf_symbol) :
    a ∈ sort_by_id l ↔ a ∈ l := by
  induction l with
  | nil => simp [sort_by_id]
  | cons x xs ih => simp [sort_by_id, mem_sorted_insert, ih]

/-- A symbol produced by the per-entry skip ladder starts with its
suppressed flag unset, as `elf_symbol::create` is called with `false`. -/
theorem entry_to_symbol_not_suppressed (k : Bool) (e : elf_sym_entry)
    (s : elf_symbol) (h : entry_to_symbol k e = some s) :
    s.is_suppressed_ = false := by
  unfold entry_to_symbol at h
  split at h
  · exact Option.noConfusion h
  · split at h
    · exact Option.noConfusion h
    · split at h
      · exact Option.noConfusion h
      · injection h with h2
        rw [← h2]
        rfl

/-- Every symbol the load discovers has its suppressed flag unset as
created. -/
theorem discovered_not_suppressed (k : Bool) (entries : List elf_sym_entry)
    (s : elf_symbol) (hs : s ∈ entries.filterMap (entry_to_symbol k)) :
    s.is_suppressed_ = false := by
  obtain ⟨e, -, he⟩ := List.mem_filterMap.mp hs
  exact entry_to_symbol_not_suppressed k e s he

/-- The ksymtab pass does not touch the suppressed flag. -/
theorem apply_ksymtab_flag_is_suppressed (exported : List String)
    (s : elf_symbol) :
    (apply_ksymtab_flag exported s).is_suppressed_ = s.is_suppressed_ := by
  unfold apply_ksymtab_flag
  split <;> rfl

/-- The suppressed dispatch does not change a symbol's name. -/
theorem load_flag_name (p : symbol_predicate) (s : elf_symbol) :
    (load_flag p s).name_ = s.name_ := by
  unfold load_flag
  split <;> rfl

/-- After the dispatch, the suppressed flag of a symbol created with the
flag unset is the predicate's verdict. -/
theorem load_flag_is_suppressed (p : symbol_predicate) (s : elf_symbol)
    (h : s.is_suppressed_ = false) :
    (load_flag p s).is_suppressed_ = pred_app p s := by
  unfold load_flag
  by_cases hp : pred_app p s = true
  · simp [hp]
  · simp only [Bool.not_eq_true] at hp
    simp [hp, h]

/-- When the predicate rejects a symbol, the dispatch leaves it as is. -/
theorem load_flag_eq_self (p : symbol_predicate) (s : elf_symbol)
    (h : pred_app p s = false) : load_flag p s = s := by
  unfold load_flag
  simp [h]

/-- `matches_soname` is the regex-pair combinator applied to the SONAME
getters. -/
theorem matches_soname_eq_pair (env : regex_env) (p : suppression_base_priv)
    (s : String) :
    matches_soname env p s =
      regex_pair_matches env (get_soname_regex env p)
        (get_soname_not_regex env p) s := rfl

/-- `matches_binary_name` is the regex-pair combinator applied to the
file-name getters. -/
theorem matches_binary_name_eq_pair (env : regex_env)
    (p : suppression_base_priv) (s : String) :
    matches_binary_name env p s =
      regex_pair_matches env (get_file_name_regex env p)
        (get_file_name_not_regex env p) s := rfl

/-- Characterization of the regex-pair combinator: it reports a match
exactly when at least one of the two regexes is present, the positive one
(when present) matches, and the negative one (when present) does not. -/
theorem regex_pair_matches_iff (env : regex_env) (pos neg : Option regex_t)
    (s : String) :
    regex_pair_matches env pos neg s = true ↔
      ((pos.isSome ∨ neg.isSome)
       ∧ (∀ r, pos = some r → regexec_match env r s = true)
       ∧ (∀ r, neg = some r → regexec_match env r s = false)) := by
  cases pos with
  | none =>
    cases neg with
    | none => simp [regex_pair_matches]
    | some r2 =>
      by_cases h : regexec_match env r2 s = true <;>
        simp [regex_pair_matches, h]
  | some r =>
    cases neg with
    | none =>
      by_cases h : regexec_match env r s = true <;>
        simp [regex_pair_matches, h]
    | some r2 =>
      by_cases h1 : regexec_match env r s = true <;>
        by_cases h2 : regexec_match env r2 s = true <;>
          simp [regex_pair_matches, h1, h2]

/-- C1 (counterexample): a suppression whose only SONAME-axis criterion is
a `soname_not_regex` does match some SONAMEs, although it has no positive
`soname_regex` — here a suppression with only the not-regex "abc" matches
the SONAME "xyz", in an environment where every pattern compiles and a
pattern matches exactly the string equal to it. -/
theorem soname_not_regex_alone_matches :
    matches_soname env_eq base_only_not_soname "xyz" = true
    ∧ base_only_not_soname.soname_regex_str_ = ""
    ∧ base_only_not_soname.soname_not_regex_str_ = "abc" := by
  decide

/-- C1 (amended): `matches_soname` returns true iff at least one of the two
SONAME regexes is present (compiled), the positive one, when present,
matches the string, and the 'not' one, when present, does not; likewise
`matches_binary_name` over the file-name regex pair.  A suppression with
only a 'not' regex on an axis therefore matches exactly the strings that
do not satisfy that regex. -/
theorem matches_soname_and_binary_name_characterization (env : regex_env)
    (p : suppression_base_priv) (s : String) :
    (matches_soname env p s = true ↔
      (((get_soname_regex env p).isSome ∨ (get_soname_not_regex env p).isSome)
       ∧ (∀ r, get_soname_regex env p = some r → regexec_match env r s = true)
       ∧ (∀ r, get_soname_not_regex env p = some r →
            regexec_match env r s = false)))
    ∧ (matches_binary_name env p s = true ↔
      (((get_file_name_regex env p).isSome
        ∨ (get_file_name_not_regex env p).isSome)
       ∧ (∀ r, get_file_name_regex env p = some r →
            regexec_match env r s = true)
       ∧ (∀ r, get_file_name_not_regex env p = some r →
            regexec_match env r s = false))) := by
  constructor
  · rw [matches_soname_eq_pair]
    exact regex_pair_matches_iff env _ _ s
  · rw [matches_binary_name_eq_pair]
    exact regex_pair_matches_iff env _ _ s

/-- Witness for the C1 characterization at a concrete input: from the
concrete match established above, the characterization yields that a
SONAME regex is present. -/
theorem matches_soname_characterization_witness :
    (get_soname_regex env_eq base_only_not_soname).isSome
    ∨ (get_soname_not_regex env_eq base_only_not_soname).isSome :=
  (((matches_soname_and_binary_name_characterization env_eq
      base_only_not_soname "xyz").1).mp (by decide)).1

/-- C2: a suppression whose SONAME regex string and SONAME not-regex
string are both empty never matches any SONAME (the empty string
included), and likewise on the file-name axis: with both of an axis's
criteria unpopulated, the suppression is non-matching on that axis. -/
theorem no_criteria_never_matches (env : regex_env)
    (p : suppression_base_priv) (s : String) :
    (p.soname_regex_str_ = "" → p.soname_not_regex_str_ = "" →
      matches_soname env p s = false)
    ∧ (p.file_name_regex_str_ = "" → p.file_name_not_regex_str_ = "" →
      matches_binary_name env p s = false) := by
  constructor
  · intro h1 h2
    simp [matches_soname, get_soname_regex, get_soname_not_regex, h1, h2]
  · intro h1 h2
    simp [matches_binary_name, get_file_name_regex, get_file_name_not_regex,
      h1, h2]

/-- Witness for C2 at a concrete input: the default-constructed
suppression base does not match the empty SONAME. -/
theorem no_criteria_never_matches_witness :
    matches_soname env_eq suppression_base_priv_default "" = false :=
  (no_criteria_never_matches env_eq suppression_base_priv_default "").1
    rfl rfl

/-- C5: when `regcomp` fails on the `soname_regex` string, no error
escapes (the getter and the matcher are total), the cached regex stays
empty (`get_soname_regex` returns nil), and — the not-regex being the
axis's only other criterion and absent — the suppression matches no
SONAME at all, so the affected change is not suppressed. -/
theorem malformed_regex_fails_open (env : regex_env)
    (p : suppression_base_priv)
    (hcomp : env.regcomp_ok p.soname_regex_str_ REG_EXTENDED = false)
    (hnot : p.soname_not_regex_str_ = "") :
    get_soname_regex env p = none
    ∧ ∀ s, matches_soname env p s = false := by
  have hg : get_soname_regex env p = none := by
    unfold get_soname_regex
    by_cases h : p.soname_regex_str_ = "" <;> simp [h, hcomp]
  refine ⟨hg, fun s => ?_⟩
  simp [matches_soname, hg, get_soname_not_regex, hnot]

/-- Witness for C5 at a concrete input: the pattern "(" fails to compile
in `env_fail`, the cached regex is nil, and no SONAME matches. -/
theorem malformed_regex_fails_open_witness :
    env_fail.regcomp_ok base_bad_soname.soname_regex_str_ REG_EXTENDED = false
    ∧ get_soname_regex env_fail base_bad_soname = none
    ∧ matches_soname env_fail base_bad_soname "libsigc-2.0.so.0" = false :=
  ⟨by decide,
   (malformed_regex_fails_open env_fail base_bad_soname (by decide) rfl).1,
   (malformed_regex_fails_open env_fail base_bad_soname (by decide) rfl).2
     "libsigc-2.0.so.0"⟩

/-- C3 (counterexample): with one registered function suppression and
context matching services that match every name, a call with both names
empty returns false, although a function suppression that matches the
declared name (and the linkage name) exists and no drop property is
required — the code demands the matched name to be non-empty, which the
claim's iff omits. -/
theorem function_is_suppressed_empty_name_counterexample :
    function_is_suppressed ctxt_fn_all "" "" false = false
    ∧ suppression.fn suppression_base_priv_default
        function_suppression_priv_default ∈ ctxt_fn_all.suppressions
    ∧ ctxt_fn_all.suppression_matches_function_name
        suppression_base_priv_default function_suppression_priv_default ""
        = true
    ∧ ctxt_fn_all.suppression_matches_function_sym_name
        suppression_base_priv_default function_suppression_priv_default ""
        = true := by
  refine ⟨by decide, ?_, rfl, rfl⟩
  simp [ctxt_fn_all]

/-- C3 (amended): `function_is_suppressed(ctxt, fn_name, fn_linkage_name,
require_drop_property)` returns true iff some registered function
suppression passes the drop screen (it has the drops-artifact flag
whenever `require_drop_property` is true) and matches the declared name or
the linkage name, where a name can only be matched when it is non-empty;
a match on either one of the two (non-empty) names alone is sufficient. -/
theorem function_is_suppressed_iff (ctxt : read_context) (fn ln : String)
    (req : Bool) :
    function_is_suppressed ctxt fn ln req = true ↔
      ∃ b fp, suppression.fn b fp ∈ ctxt.suppressions
        ∧ (req = true → b.drops_artifact_ = true)
        ∧ ((fn ≠ "" ∧ ctxt.suppression_matches_function_name b fp fn = true)
           ∨ (ln ≠ ""
              ∧ ctxt.suppression_matches_function_sym_name b fp ln = true)) :=
  fis_loop_iff ctxt fn ln req ctxt.suppressions

/-- Witness for the amended C3 at a concrete input: with a non-empty
declared name the registered match-everything suppression fires. -/
theorem function_is_suppressed_iff_witness :
    function_is_suppressed ctxt_fn_all "foo" "" false = true :=
  (function_is_suppressed_iff ctxt_fn_all "foo" "" false).mpr
    ⟨suppression_base_priv_default, function_suppression_priv_default,
     by simp [ctxt_fn_all], by simp, Or.inl ⟨by decide, rfl⟩⟩

/-- C4 (counterexample): a five-argument `type_is_suppressed` call that
enters with the out-parameter already true and returns true through an
ordinary (non-private) type suppression leaves the out-parameter true —
the code only assigns it on a private match or on overall failure, so it
is not false after a true return caused by a non-private suppression, as
the claim requires. -/
theorem type_is_private_out_param_counterexample :
    type_is_suppressed5 ctxt_ty_all "T" loc0 true false = (true, true)
    ∧ is_private_type_suppr_spec suppression_base_priv_default
        type_suppression_priv_default = false := by
  decide

/-- C4 (amended): after a five-argument `type_is_suppressed` call, the
out-parameter is false when the call returns false, true when the call
returns true because of a private-type suppression, and *unchanged from
its entry value* when the call returns true because of an ordinary type
suppression; consequently, whenever the out-parameter enters false — as
the three-argument overload arranges — it leaves true iff the call
returned true because of a private-type suppression. -/
theorem type_is_suppressed_characterization (ctxt : read_context)
    (tn : String) (loc : location) (tip req : Bool) :
    (type_is_suppressed5 ctxt tn loc tip req =
      match first_deciding_type_suppr ctxt tn loc req ctxt.suppressions with
      | none => (false, false)
      | some true => (true, true)
      | some false => (true, tip))
    ∧ ((type_is_suppressed5 ctxt tn loc false req).2 = true ↔
        first_deciding_type_suppr ctxt tn loc req ctxt.suppressions =
          some true) := by
  refine ⟨tis_loop_eq ctxt tn loc tip req ctxt.suppressions, ?_⟩
  rw [show type_is_suppressed5 ctxt tn loc false req = _ from
    tis_loop_eq ctxt tn loc false req ctxt.suppressions]
  cases hfd : first_deciding_type_suppr ctxt tn loc req ctxt.suppressions with
  | none => simp
  | some b => cases b <;> simp

/-- C8: a default-constructed `symtab_filter` (all five optional
predicates unset) matches every symbol: every clause short-circuits on
its unset optional before dereferencing the pointer, so the call is
defined and returns true even for a null `elf_symbol_sptr`, as the unit
test asserts; the same holds for the filter obtained from a
default-constructed `symtab_filter_builder`. -/
theorem default_filter_matches_anything (symbol : elf_symbol_sptr) :
    symtab_filter_default.matches symbol = some true
    ∧ symtab_filter_builder_default.to_filter.matches symbol = some true :=
  ⟨rfl, rfl⟩

/-- C9: evaluation of the embedded getters at the failing site.  In an
environment whose `regcomp` succeeds only under `REG_EXTENDED`,
`variable_suppression::priv::get_symbol_name_not_regex` fails to compile
its pattern while its sibling `get_symbol_name_regex` succeeds; in an
environment whose `regcomp` succeeds only under `cflags = 0`, the
not-regex getter succeeds and records `cflags = 0`: the site passes
`REG_EXTENDED == 0` (the integer 0) instead of `REG_EXTENDED` to
`regcomp`. -/
theorem symbol_name_not_regex_wrong_cflags :
    vs_get_symbol_name_not_regex env_ext_only vp_alternation = none
    ∧ vs_get_symbol_name_regex env_ext_only vp_alternation =
        some ⟨"a|b", REG_EXTENDED⟩
    ∧ vs_get_symbol_name_not_regex env_basic_only vp_alternation =
        some ⟨"a|b", 0⟩
    ∧ vs_get_symbol_name_regex env_basic_only vp_alternation = none := by
  decide

/-- C6: for every filter and every range of (non-null) symbols, the
`symtab_iterator` run is defined; at every number of increments at which
the iterator has not reached end, dereferencing it yields a symbol the
filter matches; and `operator++` reaches end after exactly as many
increments as the range holds matching elements — no earlier.  (On a
range containing a null pointer, a filter with a set predicate would
dereference null — undefined behaviour, `none` in the model — which is
why the range is one of symbols, as the symbols_ vector of a loaded
symtab is.) -/
theorem symtab_iterator_filters_and_terminates (filter : symtab_filter)
    (syms : List elf_symbol_sptr) (hnn : ∀ x ∈ syms, x ≠ none) :
    (∀ n a t, symtab_iter_state filter n syms = some (a :: t) →
        filter.matches a = some true)
    ∧ symtab_iter_state filter
        (syms.countP (fun s => filter.matches s == some true)) syms = some []
    ∧ ∀ k, k < syms.countP (fun s => filter.matches s == some true) →
        symtab_iter_state filter k syms ≠ some [] := by
  induction syms with
  | nil =>
    refine ⟨?_, ?_, ?_⟩
    · intro n a t h
      rw [iter_state_nil] at h
      injection h with h2
      simp at h2
    · simpa [List.countP_nil] using iter_state_nil filter 0
    · intro k hk
      simp [List.countP_nil] at hk
  | cons s rest ih =>
    have hs : s ≠ none := hnn s (List.mem_cons_self s rest)
    have hrest : ∀ x ∈ rest, x ≠ none :=
      fun x hx => hnn x (List.mem_cons_of_mem s hx)
    obtain ⟨sym, rfl⟩ : ∃ sym, s = some sym :=
      Option.ne_none_iff_exists'.mp hs
    have hm := matches_some_eq filter sym
    specialize ih hrest
    cases hb : matches_bool filter sym with
    | true =>
      rw [hb] at hm
      have hp : (fun s => filter.matches s == some true) (some sym) = true := by
        simp only [hm]
        rfl
      have hcount : (some sym :: rest).countP
          (fun s => filter.matches s == some true) =
          rest.countP (fun s => filter.matches s == some true) + 1 := by
        simp [List.countP_cons, hp]
      have hmk : skip_to_next filter (some sym :: rest) =
          some (some sym :: rest) := by
        simp only [skip_to_next, hm]
      obtain ⟨it2, hit2⟩ := skip_total filter rest hrest
      have hstep : ∀ k, symtab_iterate filter (k + 1) (some sym :: rest) =
          symtab_iter_state filter k rest := by
        intro k
        simp only [symtab_iterate, symtab_iterator_inc, hit2,
          symtab_iter_state, symtab_iterator_mk]
      have hstate : ∀ n, symtab_iter_state filter n (some sym :: rest) =
          symtab_iterate filter n (some sym :: rest) := by
        intro n
        simp only [symtab_iter_state, symtab_iterator_mk, hmk]
      refine ⟨?_, ?_, ?_⟩
      · intro n a t h
        rw [hstate] at h
        cases n with
        | zero =>
          simp only [symtab_iterate] at h
          injection h with h2
          injection h2 with h3 h4
          rw [← h3]
          exact hm
        | succ k =>
          rw [hstep k] at h
          exact ih.1 k a t h
      · rw [hstate, hcount, hstep]
        exact ih.2.1
      · intro k hk
        rw [hstate]
        cases k with
        | zero => simp [symtab_iterate]
        | succ j =>
          rw [hstep j]
          rw [hcount] at hk
          exact ih.2.2 j (Nat.lt_of_succ_lt_succ hk)
    | false =>
      rw [hb] at hm
      have hp : (fun s => filter.matches s == some true) (some sym) = false := by
        simp only [hm]
        rfl
      have hcount : (some sym :: rest).countP
          (fun s => filter.matches s == some true) =
          rest.countP (fun s => filter.matches s == some true) := by
        simp [List.countP_cons, hp]
      have hmk : skip_to_next filter (some sym :: rest) =
          skip_to_next filter rest := by
        simp only [skip_to_next, hm]
      have hstate : ∀ n, symtab_iter_state filter n (some sym :: rest) =
          symtab_iter_state filter n rest := by
        intro n
        simp only [symtab_iter_state, symtab_iterator_mk, hmk]
      rw [hcount]
      simp only [hstate]
      exact ih

/-- Witness for C6 at a concrete input: on a two-element range in which
only the function symbol passes a functions-only filter, the first
dereference is a match, and one increment reaches end while zero
increments do not. -/
theorem symtab_iterator_witness :
    fn_filter.matches (some sample_symbol) = some true
    ∧ symtab_iter_state fn_filter 1 [some sample_variable, some sample_symbol]
        = some []
    ∧ symtab_iter_state fn_filter 0 [some sample_variable, some sample_symbol]
        ≠ some [] := by
  have h := symtab_iterator_filters_and_terminates fn_filter
    [some sample_variable, some sample_symbol] (by decide)
  refine ⟨?_, ?_, ?_⟩
  · exact h.1 0 (some sample_symbol) [] (by decide)
  · have h2 := h.2.1
    rw [show ([some sample_variable, some sample_symbol].countP
      (fun s => fn_filter.matches s == some true)) = 1 from by decide] at h2
    exact h2
  · exact h.2.2 0 (by decide)

/-- C7: for a symtab loaded from a `.symtab` entry list and a
suppressed-predicate, every discovered symbol — in the state the load
leaves it: the suppressed flag set by the dispatch, the in-ksymtab flag
set by the ksymtab pass, both mutations shared by every container — is in
the ordered symbols_ sequence iff the predicate did not flag it
suppressed, and is in its name's bucket of the name→symbols lookup map in
every case. -/
theorem symtab_load_membership (is_kernel : Bool)
    (is_suppressed : symbol_predicate) (entries : List elf_sym_entry)
    (s : elf_symbol)
    (hs : s ∈ entries.filterMap (entry_to_symbol is_kernel)) :
    (apply_ksymtab_flag (entries.filterMap (entry_ksymtab_export is_kernel))
        (load_flag is_suppressed s) ∈
        (symtab_load_ is_kernel is_suppressed entries).symbols_ ↔
      pred_app is_suppressed s = false)
    ∧ apply_ksymtab_flag (entries.filterMap (entry_ksymtab_export is_kernel))
        (load_flag is_suppressed s) ∈
        (symtab_load_ is_kernel is_suppressed entries).name_symbol_map_
          s.name_ := by
  have hsupp : s.is_suppressed_ = false :=
    discovered_not_suppressed is_kernel entries s hs
  constructor
  · simp only [symtab_load_, mem_sort_by_id, List.mem_map]
    constructor
    · rintro ⟨t, ht, happ⟩
      rw [List.mem_filter] at ht
      have htsupp : t.is_suppressed_ = false :=
        discovered_not_suppressed is_kernel entries t ht.1
      have h1 := congrArg elf_symbol.is_suppressed_ happ
      rw [apply_ksymtab_flag_is_suppressed, apply_ksymtab_flag_is_suppressed,
        htsupp, load_flag_is_suppressed is_suppressed s hsupp] at h1
      exact h1.symm
    · intro hp
      refine ⟨s, ?_, ?_⟩
      · rw [List.mem_filter]
        exact ⟨hs, by simp [hp]⟩
      · rw [load_flag_eq_self is_suppressed s hp]
  · simp only [symtab_load_, List.mem_map]
    refine ⟨load_flag is_suppressed s, ?_, rfl⟩
    rw [List.mem_filter]
    refine ⟨List.mem_map_of_mem _ hs, ?_⟩
    rw [load_flag_name]
    simp

/-- Witness for C7 at a concrete input: loading a single-entry symtab
describing the function "foo" with a null suppressed-predicate, the
discovered symbol is in the ordered sequence and in its name bucket. -/
theorem symtab_load_membership_witness :
    (apply_ksymtab_flag ([entry0].filterMap (entry_ksymtab_export false))
        (load_flag (none : symbol_predicate)
          (elf_symbol_create "foo" entry0)) ∈
        (symtab_load_ false (none : symbol_predicate) [entry0]).symbols_ ↔
      pred_app (none : symbol_predicate) (elf_symbol_create "foo" entry0)
        = false)
    ∧ apply_ksymtab_flag ([entry0].filterMap (entry_ksymtab_export false))
        (load_flag (none : symbol_predicate)
          (elf_symbol_create "foo" entry0)) ∈
        (symtab_load_ false (none : symbol_predicate)
          [entry0]).name_symbol_map_ (elf_symbol_create "foo" entry0).name_ :=
  symtab_load_membership false (none : symbol_predicate) [entry0]
    (elf_symbol_create "foo" entry0) (by decide)

/-- C10: `is_elf_symbol_suppressed` returns false whenever the ELF type is
neither the function type nor the variable type; on the function
(resp. variable) type it equals `function_is_suppressed`
(resp. `variable_is_suppressed`) called with an empty declared name and
the symbol name, so through this entry point a suppression can only fire
via its symbol-name matching, and only on a non-empty symbol name. -/
theorem is_elf_symbol_suppressed_dispatch (ctxt : read_context)
    (sym_name : String) (t : elf_symbol_type) :
    ((elf_symbol_is_function t = false ∧ elf_symbol_is_variable t = false) →
      is_elf_symbol_suppressed ctxt sym_name t = false)
    ∧ (elf_symbol_is_function t = true →
        (is_elf_symbol_suppressed ctxt sym_name t =
          function_is_suppressed ctxt "" sym_name false
        ∧ (is_elf_symbol_suppressed ctxt sym_name t = true ↔
            ∃ b fp, suppression.fn b fp ∈ ctxt.suppressions
              ∧ sym_name ≠ ""
              ∧ ctxt.suppression_matches_function_sym_name b fp sym_name
                  = true)))
    ∧ (elf_symbol_is_variable t = true →
        (is_elf_symbol_suppressed ctxt sym_name t =
          variable_is_suppressed ctxt "" sym_name false
        ∧ (is_elf_symbol_suppressed ctxt sym_name t = true ↔
            ∃ b vp, suppression.var b vp ∈ ctxt.suppressions
              ∧ sym_name ≠ ""
              ∧ ctxt.suppression_matches_variable_sym_name b vp sym_name
                  = true))) := by
  refine ⟨?_, ?_, ?_⟩
  · rintro ⟨h1, h2⟩
    simp [is_elf_symbol_suppressed, h1, h2]
  · intro h1
    have he : is_elf_symbol_suppressed ctxt sym_name t =
        function_is_suppressed ctxt "" sym_name false := by
      simp [is_elf_symbol_suppressed, h1]
    refine ⟨he, ?_⟩
    rw [he, function_is_suppressed, fis_loop_iff]
    constructor
    · rintro ⟨b, fp, hmem, -, ⟨hne, -⟩ | ⟨hne, hmatch⟩⟩
      · exact absurd rfl hne
      · exact ⟨b, fp, hmem, hne, hmatch⟩
    · rintro ⟨b, fp, hmem, hne, hmatch⟩
      exact ⟨b, fp, hmem, by simp, Or.inr ⟨hne, hmatch⟩⟩
  · intro h1
    have hf : elf_symbol_is_function t = false := by
      cases t <;> simp_all [elf_symbol_is_function, elf_symbol_is_variable]
    have he : is_elf_symbol_suppressed ctxt sym_name t =
        variable_is_suppressed ctxt "" sym_name false := by
      simp [is_elf_symbol_suppressed, hf, h1]
    refine ⟨he, ?_⟩
    rw [he, variable_is_suppressed, vis_loop_iff]
    constructor
    · rintro ⟨b, vp, hmem, -, ⟨hne, -⟩ | ⟨hne, hmatch⟩⟩
      · exact absurd rfl hne
      · exact ⟨b, vp, hmem, hne, hmatch⟩
    · rintro ⟨b, vp, hmem, hne, hmatch⟩
      exact ⟨b, vp, hmem, by simp, Or.inr ⟨hne, hmatch⟩⟩

/-- Witness for C10 at concrete inputs: a TLS symbol is never suppressed
through this entry point, and on a function symbol the call reduces to
`function_is_suppressed` with an empty declared name. -/
theorem is_elf_symbol_suppressed_dispatch_witness :
    is_elf_symbol_suppressed ctxt_fn_all "x" elf_symbol_type.TLS_TYPE = false
    ∧ is_elf_symbol_suppressed ctxt_fn_all "x" elf_symbol_type.FUNC_TYPE =
        function_is_suppressed ctxt_fn_all "" "x" false :=
  ⟨(is_elf_symbol_suppressed_dispatch ctxt_fn_all "x"
      elf_symbol_type.TLS_TYPE).1 (by decide),
   ((is_elf_symbol_suppressed_dispatch ctxt_fn_all "x"
      elf_symbol_type.FUNC_TYPE).2.1 (by decide)).1⟩

end Abigail

